import Mathlib

/-!
Shallow embedding of the JobSearchOps opportunity-lifecycle engine:
the stage transition table and `advance_stage` (src/modules/workflow.py),
the follow-up queue (`get_followup_queue`), the outreach-mark routes
(src/web/routes.py: `mark_outreach_sent`, `mark_followup`), and the AI
orchestration layer's parse/log wrapper (src/modules/ai_engine.py:
`_parse_json_response`, `_log_ai_action`, `score_fit`).

Dates are embedded as integers (a day count): the code stores dates as
ISO `YYYY-MM-DD` strings, whose equality and lexicographic order agree
with equality and order of day counts, and `timedelta(days=d)` becomes
integer addition.  The SQLite store is embedded as lists of rows; an
`UPDATE ... WHERE id = ?` is a map over the row list patching matching
rows, and `execute_query` commits per call, so each write is immediately
persisted.  A Python function that raises is modelled as returning
`Store × Option String`: the store after all writes committed before the
raise, paired with `some errorMessage` (or `none` on normal return).
-/

namespace JobSearchOps

/-- A calendar date, as a day count.  ISO date strings compare (for `=`,
`<`, `ORDER BY`) exactly as their day counts do. -/
abbrev Date := Int

/-- Row of the `opportunities` table, mirroring the `Opportunity`
dataclass in src/models/opportunity.py (field for field; defaults mirror
the dataclass defaults). -/
structure Opportunity where
  id : Nat := 0
  company : String := ""
  role_title : String := ""
  job_family : Option String := none
  tier : Option Int := none
  stage : String := "Prospect"
  source : Option String := none
  date_added : Option Date := none
  date_applied : Option Date := none
  date_closed : Option Date := none
  close_reason : Option String := none
  fit_score : Option Int := none
  salary_range : Option String := none
  jd_url : Option String := none
  jd_raw : Option String := none
  jd_keywords : Option String := none
  resume_version : Option String := none
  next_action : Option String := none
  next_action_date : Option Date := none
  notes : Option String := none
  ai_fit_summary : Option String := none
  tailored_resume : Option String := none
  cover_letter : Option String := none
  deriving Repr, DecidableEq

/-- Modelled from the spec: the `Contact` dataclass lives in
src/models/contact.py, which is not among the provided source files; its
fields are taken from the spec's data model ("name, title, company,
contact type, outreach dates day0/day3/day7, response_status, notes",
owned by one Opportunity) and from the columns selected on it in
src/modules/workflow.py and src/web/routes.py. -/
structure Contact where
  id : Nat := 0
  opportunity_id : Option Nat := none
  full_name : String := ""
  title : Option String := none
  company : Option String := none
  contact_type : Option String := none
  email : Option String := none
  outreach_day0 : Option Date := none
  outreach_day3 : Option Date := none
  outreach_day7 : Option Date := none
  response_status : String := "Pending"
  notes : Option String := none
  deriving Repr, DecidableEq

/-- Row of the append-only `activity_log` table (spec §3
`ActivityLogEntry`; written via `log_activity`).  Metadata is kept as a
list of key/value pairs, numeric values rendered to strings. -/
structure ActivityLogEntry where
  activity_type : String
  description : String
  opportunity_id : Option Nat := none
  contact_id : Option Nat := none
  metadata : List (String × String) := []
  deriving Repr, DecidableEq

/-- The relational store (src/db/database.py): the three tables the
claims touch.  `activity_log` is append-only. -/
structure Store where
  opportunities : List Opportunity := []
  contacts : List Contact := []
  activity_log : List ActivityLogEntry := []
  deriving Repr, DecidableEq

/-- `STAGE_TRANSITIONS` from src/modules/workflow.py, as an association
list (the Python dict is literal and its keys distinct, so dict lookup
is association-list lookup). -/
def STAGE_TRANSITIONS : List (String × (String × Int)) :=
  [ ("Prospect",         ("Find contact and send outreach", 0)),
    ("Warm Lead",        ("Follow up if no response in 3 days", 3)),
    ("Applied",          ("Follow up with contact; check for recruiter screen", 5)),
    ("Recruiter Screen", ("Send thank-you; await HM invite", 1)),
    ("HM Interview",     ("Send thank-you; prepare for loop", 1)),
    ("Loop",             ("Send thank-yous to all interviewers; await decision", 2)),
    ("Offer Pending",    ("Review offer; research comp benchmarks", 3)) ]

/-- `calculate_next_action` (workflow.py): table lookup with the generic
fallback for unknown stages. -/
def calculate_next_action (stage : String) : String × Int :=
  (STAGE_TRANSITIONS.lookup stage).getD ("Review and set next step", 7)

/-- `get_opportunity` (src/models/opportunity.py): `SELECT * FROM
opportunities WHERE id = ?` fetching one row. -/
def get_opportunity (s : Store) (opp_id : Nat) : Option Opportunity :=
  s.opportunities.find? (fun o => o.id == opp_id)

/-- `update_opportunity(opp_id, **kwargs)` (src/models/opportunity.py):
`UPDATE opportunities SET ... WHERE id = ?`, i.e. patch every row whose
id matches (ids are the primary key).  The concrete `kwargs` dict of a
call site becomes the concrete `patch` function. -/
def update_opportunity_row (s : Store) (opp_id : Nat) (patch : Opportunity → Opportunity) : Store :=
  { s with opportunities := s.opportunities.map (fun o => if o.id == opp_id then patch o else o) }

/-- Modelled from the spec: `get_contact` lives in
src/models/contact.py (absent from the provided sources); per the spec's
store contract it is row CRUD keyed by integer id, exactly like
`get_opportunity`. -/
def get_contact (s : Store) (contact_id : Nat) : Option Contact :=
  s.contacts.find? (fun c => c.id == contact_id)

/-- Modelled from the spec: `update_contact(contact_id, **kwargs)` from
src/models/contact.py (absent from the provided sources); per the spec's
store contract it is the same keyed row patch as `update_opportunity`. -/
def update_contact_row (s : Store) (contact_id : Nat) (patch : Contact → Contact) : Store :=
  { s with contacts := s.contacts.map (fun c => if c.id == contact_id then patch c else c) }

/-- Modelled from the spec: `log_activity` lives in
src/models/activity.py (absent from the provided sources); per the spec
it appends one immutable `ActivityLogEntry` row to the append-only
activity log (an `INSERT` through `execute_query`, committed on its
own). -/
def log_activity (s : Store) (e : ActivityLogEntry) : Store :=
  { s with activity_log := s.activity_log ++ [e] }

/-- The update applied to the opportunity row by `advance_stage`
(workflow.py lines 74-89): the `update_kwargs` dict — always `stage`,
`next_action`, `next_action_date`; plus `date_closed` (and
`close_reason` when truthy, i.e. neither `None` nor the empty string)
when `new_stage == "Closed"`; plus `date_applied` when
`new_stage == "Applied"` and the prior stage was not `"Applied"`. -/
def advance_patch (today : Date) (new_stage old_stage : String)
    (close_reason : Option String) (o : Opportunity) : Opportunity :=
  let na := calculate_next_action new_stage
  let o1 := { o with stage := new_stage, next_action := some na.1,
                     next_action_date := some (today + na.2) }
  let o2 :=
    if new_stage == "Closed" then
      let oc := { o1 with date_closed := some today }
      match close_reason with
      | some r => if r == "" then oc else { oc with close_reason := some r }
      | none => oc
    else o1
  if new_stage == "Applied" && !(old_stage == "Applied") then
    { o2 with date_applied := some today }
  else o2

/-- The "Stage Change" activity-log entry appended by `advance_stage`
(workflow.py lines 92-100). -/
def stage_change_entry (opportunity_id : Nat) (old_stage new_stage : String)
    (note : Option String) (next_action_date : Date) : ActivityLogEntry :=
  { activity_type := "Stage Change",
    description := "Stage changed: " ++ old_stage ++ " → " ++ new_stage ++
      (match note with
       | some n => " | Note: " ++ n
       | none => ""),
    opportunity_id := some opportunity_id,
    contact_id := none,
    metadata := [("old_stage", old_stage), ("new_stage", new_stage),
                 ("next_action_date", toString next_action_date)] }

/-- `advance_stage` (workflow.py): looks up the opportunity (raising
`ValueError` when absent — modelled as `some errMsg` in the second
component, with the store untouched), computes the next action from the
transition table, commits the field update via `update_opportunity`, and
then appends the "Stage Change" log entry.  `today` is `date.today()`
at the time of the call. -/
def advance_stage (s : Store) (today : Date) (opportunity_id : Nat) (new_stage : String)
    (note : Option String) (close_reason : Option String) : Store × Option String :=
  match get_opportunity s opportunity_id with
  | none => (s, some ("Opportunity " ++ toString opportunity_id ++ " not found."))
  | some opp =>
    let old_stage := opp.stage
    let na := calculate_next_action new_stage
    let next_action_date := today + na.2
    let s1 := update_opportunity_row s opportunity_id
      (advance_patch today new_stage old_stage close_reason)
    let s2 := log_activity s1 (stage_change_entry opportunity_id old_stage new_stage note next_action_date)
    (s2, none)

/-- `advance_stage` on the run where the activity-log `INSERT` raises a
database error (src/db/database.py `execute_query` logs and re-raises;
workflow.py does not catch it): the field update was already committed
by its own `execute_query` call, the log append leaves no row, and the
error propagates to the caller. -/
def advance_stage_logFail (s : Store) (today : Date) (opportunity_id : Nat) (new_stage : String)
    (note : Option String) (close_reason : Option String) : Store × Option String :=
  match get_opportunity s opportunity_id with
  | none => (s, some ("Opportunity " ++ toString opportunity_id ++ " not found."))
  | some opp =>
    let old_stage := opp.stage
    let s1 := update_opportunity_row s opportunity_id
      (advance_patch today new_stage old_stage close_reason)
    (s1, some "Database error: activity_log INSERT failed")

/-- One result row of `get_followup_queue`'s SELECT (workflow.py lines
38-58): the selected contact and opportunity columns plus the computed
`followup_reason` CASE column (`NULL`, i.e. `none`, when neither CASE
arm matches). -/
structure FollowupRow where
  contact_id : Nat
  full_name : String
  title : Option String
  company : Option String
  outreach_day0 : Option Date
  outreach_day3 : Option Date
  outreach_day7 : Option Date
  response_status : String
  contact_type : Option String
  opportunity_id : Nat
  opp_company : String
  role_title : String
  stage : String
  followup_reason : Option String
  deriving Repr, DecidableEq

/-- The SELECT list of `get_followup_queue`, applied to one joined
(contact, opportunity) pair; `day3`/`day7` are the two bound dates
(today − 3 and today − 7). -/
def mkFollowupRow (c : Contact) (o : Opportunity) (day3 day7 : Date) : FollowupRow :=
  { contact_id := c.id, full_name := c.full_name, title := c.title, company := c.company,
    outreach_day0 := c.outreach_day0, outreach_day3 := c.outreach_day3,
    outreach_day7 := c.outreach_day7, response_status := c.response_status,
    contact_type := c.contact_type, opportunity_id := o.id, opp_company := o.company,
    role_title := o.role_title, stage := o.stage,
    followup_reason :=
      if c.outreach_day0 == some day3 then some "Day 3 follow-up due"
      else if c.outreach_day0 == some day7 then some "Day 7 follow-up due"
      else none }

/-- The JOIN/WHERE treatment of one contact in `get_followup_queue`:
joined to its opportunity (`JOIN opportunities o ON o.id =
c.opportunity_id`), kept when `response_status = 'Pending'`,
`outreach_day0` equals today−3 or today−7 (a SQL `=` against a `NULL`
day0 is not true, hence the `Option` equality), and the opportunity is
not Closed. -/
def followup_row? (s : Store) (today : Date) (c : Contact) : Option FollowupRow :=
  let day3 := today - 3
  let day7 := today - 7
  match c.opportunity_id with
  | none => none
  | some oid =>
    match get_opportunity s oid with
    | none => none
    | some o =>
      if c.response_status == "Pending"
          && (c.outreach_day0 == some day3 || c.outreach_day0 == some day7)
          && !(o.stage == "Closed")
      then some (mkFollowupRow c o day3 day7)
      else none

/-- The FROM/JOIN/WHERE part of `get_followup_queue`, over the whole
contacts table. -/
def followup_filter (s : Store) (today : Date) : List FollowupRow :=
  s.contacts.filterMap (followup_row? s today)

/-- `ORDER BY c.outreach_day0 ASC`: compare rows by their
`outreach_day0` column (SQLite sorts `NULL` first, hence `⊥` for
`none`; every row the WHERE clause keeps has a non-`NULL` day0). -/
def rowKey (r : FollowupRow) : WithBot Int :=
  match r.outreach_day0 with
  | none => ⊥
  | some d => (d : WithBot Int)

/-- Row order used by `ORDER BY c.outreach_day0 ASC`. -/
def rowLE (a b : FollowupRow) : Prop := rowKey a ≤ rowKey b

instance : DecidableRel rowLE := fun a b =>
  inferInstanceAs (Decidable (rowKey a ≤ rowKey b))

instance : IsTotal FollowupRow rowLE :=
  ⟨fun a b => le_total (rowKey a) (rowKey b)⟩

instance : IsTrans FollowupRow rowLE :=
  ⟨fun _ _ _ hab hbc => le_trans hab hbc⟩

/-- `get_followup_queue` (workflow.py lines 34-62): the filtered join,
ordered by `outreach_day0` ascending. -/
def get_followup_queue (s : Store) (today : Date) : List FollowupRow :=
  List.insertionSort rowLE (followup_filter s today)

/-- The "Outreach Sent" log entry appended by `mark_outreach_sent`
(routes.py lines 89-94). -/
def outreach_sent_entry (c : Contact) : ActivityLogEntry :=
  { activity_type := "Outreach Sent",
    description := "Outreach marked as sent to " ++ c.full_name,
    opportunity_id := c.opportunity_id,
    contact_id := some c.id,
    metadata := [] }

/-- `mark_outreach_sent` (src/web/routes.py lines 76-95): 404s when the
contact is absent; when `outreach_day0` is unset, stamps it to today
and — when the contact's opportunity exists and is in stage
"Prospect" — calls `advance_stage(opportunity_id, "Warm Lead",
"Outreach sent")`; finally logs "Outreach Sent".  An error raised by
the inner `advance_stage` would propagate before the "Outreach Sent"
log append (second component `some msg`). -/
def mark_outreach_sent (s : Store) (today : Date) (contact_id : Nat) : Store × Option String :=
  match get_contact s contact_id with
  | none => (s, some "Contact not found")
  | some c =>
    let step1 : Store × Option String :=
      if c.outreach_day0 == none then
        let s1 := update_contact_row s contact_id (fun cc => { cc with outreach_day0 := some today })
        match c.opportunity_id with
        | some oid =>
          match get_opportunity s1 oid with
          | some o =>
            if o.stage == "Prospect" then
              advance_stage s1 today oid "Warm Lead" (some "Outreach sent") none
            else (s1, none)
          | none => (s1, none)
        | none => (s1, none)
      else (s, none)
    match step1 with
    | (s1, none) => (log_activity s1 (outreach_sent_entry c), none)
    | (s1, some e) => (s1, some e)

/-- `mark_followup` (src/web/routes.py lines 597-616): redirects with no
write when the contact is absent or `outreach_day0` unset; otherwise
computes `days_since = today − outreach_day0` and — unconditionally, no
already-set check — stamps `outreach_day7 := today` when
`days_since ≥ 6`, else `outreach_day3 := today`, then logs
"Follow-Up Sent". -/
def mark_followup (s : Store) (today : Date) (contact_id : Nat) : Store :=
  match get_contact s contact_id with
  | none => s
  | some c =>
    match c.outreach_day0 with
    | none => s
    | some d0 =>
      let days_since := today - d0
      if days_since ≥ 6 then
        let s1 := update_contact_row s contact_id (fun cc => { cc with outreach_day7 := some today })
        log_activity s1
          { activity_type := "Follow-Up Sent",
            description := "Day 7 follow-up sent to " ++ c.full_name,
            opportunity_id := c.opportunity_id, contact_id := some contact_id, metadata := [] }
      else
        let s1 := update_contact_row s contact_id (fun cc => { cc with outreach_day3 := some today })
        log_activity s1
          { activity_type := "Follow-Up Sent",
            description := "Day 3 follow-up sent to " ++ c.full_name,
            opportunity_id := c.opportunity_id, contact_id := some contact_id, metadata := [] }

/-- Python `str.strip()` with no argument: remove whitespace from both
ends (implemented over the character list so that it evaluates inside
proofs). -/
def py_strip (s : String) : String :=
  ⟨((s.data.dropWhile Char.isWhitespace).reverse.dropWhile Char.isWhitespace).reverse⟩

/-- Python `s.startswith(p)`. -/
def py_startswith (s p : String) : Bool :=
  p.data.isPrefixOf s.data

/-- Python `s.split("\n")` on the character list: the list of segments
between newline characters (always non-empty). -/
def split_nl_chars : List Char → List (List Char)
  | [] => [[]]
  | ch :: rest =>
    match split_nl_chars rest with
    | [] => [[]]
    | line :: more =>
      if ch = '\n' then [] :: line :: more else (ch :: line) :: more

/-- Python `s.split("\n")`. -/
def py_split_nl (s : String) : List String :=
  (split_nl_chars s.data).map (fun l => ⟨l⟩)

/-- The fence-stripping step of `_parse_json_response`
(src/modules/ai_engine.py lines 52-58): strip the text; when it starts
with a triple backtick, drop the first line (`lines[1:]`), and also the
last line (`lines[1:-1]`) when that line (stripped) is itself a bare
fence; strip the remainder (the final `cleaned.strip()` before
`json.loads`). -/
def strip_markdown_fences (text : String) : String :=
  let cleaned := py_strip text
  if py_startswith cleaned "```" then
    let lines := py_split_nl cleaned
    let body :=
      if py_strip (lines.getLast?.getD "") == "```" then (lines.drop 1).dropLast
      else lines.drop 1
    py_strip (String.intercalate "\n" body)
  else cleaned

/-- `_parse_json_response` (ai_engine.py): fence stripping followed by
`json.loads`.  The JSON decoder is abstracted as
`parse : String → Option J` (`none` models `json.loads` raising on
invalid JSON); the claims under test concern the stripping and the
control flow, not the grammar of JSON itself. -/
def _parse_json_response {J : Type} (parse : String → Option J) (text : String) : Option J :=
  parse (strip_markdown_fences text)

/-- `_log_ai_action` (ai_engine.py lines 38-49): appends an "AI Action"
activity-log entry; any exception from the append is caught and only
warned about (`log_ok = false` models the append raising), so this
operation never raises. -/
def _log_ai_action (s : Store) (log_ok : Bool) (function_name : String)
    (opportunity_id : Option Nat) : Store :=
  if log_ok then
    log_activity s
      { activity_type := "AI Action",
        description := "AI function called: " ++ function_name,
        opportunity_id := opportunity_id, contact_id := none,
        metadata := [("function_name", function_name)] }
  else s

/-- `score_fit` (ai_engine.py lines 64-97), effects model.
`call_result` is the outcome of the external `call_claude` invocation
(`.ok responseText`, or `.error e` when the API call raises); `log_ok`
is whether the activity-log INSERT inside `_log_ai_action` succeeds.
The body's `try`/`except` logs and re-raises any failure of the call or
of `_parse_json_response`; on success it logs the AI action (failure
swallowed) and returns the parsed dict.  `score_fit` writes no
opportunity field — persisting the result is the caller's job. -/
def score_fit {J : Type} (parse : String → Option J) (s : Store) (opportunity_id : Option Nat)
    (call_result : Except String String) (log_ok : Bool) : Store × Except String J :=
  match call_result with
  | .error e => (s, .error e)
  | .ok response_text =>
    match _parse_json_response parse response_text with
    | none => (s, .error "ParseError")
    | some result =>
      let s1 := _log_ai_action s log_ok "score_fit" opportunity_id
      (s1, .ok result)

/-! ### Helper lemmas about the store embedding -/

/-- `find?` over a keyed row patch: patching the rows whose id matches
the searched key commutes with the row lookup, provided the patch keeps
the id. -/
theorem find?_map_patch {α : Type} (idOf : α → Nat) (k : Nat) (patch : α → α)
    (hp : ∀ a, idOf (patch a) = idOf a) (l : List α) :
    (l.map (fun a => if idOf a == k then patch a else a)).find? (fun a => idOf a == k) =
      (l.find? (fun a => idOf a == k)).map patch := by
  rw [List.find?_map]
  have hcomp : ((fun a => idOf a == k) ∘ (fun a => if idOf a == k then patch a else a)) =
      (fun a => idOf a == k) := by
    funext a
    by_cases h : idOf a = k
    · simp [h, hp]
    · simp [h]
  rw [hcomp]
  cases hf : l.find? (fun a => idOf a == k) with
  | none => rfl
  | some a =>
    have ha : idOf a = k := by simpa using List.find?_some hf
    simp [ha]

theorem get_opportunity_update (s : Store) (k : Nat) (patch : Opportunity → Opportunity)
    (hp : ∀ o, (patch o).id = o.id) :
    get_opportunity (update_opportunity_row s k patch) k = (get_opportunity s k).map patch := by
  simp only [get_opportunity, update_opportunity_row]
  exact find?_map_patch Opportunity.id k patch hp s.opportunities

theorem get_contact_update (s : Store) (k : Nat) (patch : Contact → Contact)
    (hp : ∀ c, (patch c).id = c.id) :
    get_contact (update_contact_row s k patch) k = (get_contact s k).map patch := by
  simp only [get_contact, update_contact_row]
  exact find?_map_patch Contact.id k patch hp s.contacts

theorem get_opportunity_log (s : Store) (e : ActivityLogEntry) (k : Nat) :
    get_opportunity (log_activity s e) k = get_opportunity s k := rfl

theorem get_contact_log (s : Store) (e : ActivityLogEntry) (k : Nat) :
    get_contact (log_activity s e) k = get_contact s k := rfl

theorem get_opportunity_update_contact (s : Store) (k k2 : Nat) (patch : Contact → Contact) :
    get_opportunity (update_contact_row s k patch) k2 = get_opportunity s k2 := rfl

theorem get_contact_update_opportunity (s : Store) (k k2 : Nat) (patch : Opportunity → Opportunity) :
    get_contact (update_opportunity_row s k patch) k2 = get_contact s k2 := rfl

/-! ### Helper lemmas about `advance_patch` and `advance_stage` -/

theorem advance_patch_id (today : Date) (ns os : String) (cr : Option String) (o : Opportunity) :
    (advance_patch today ns os cr o).id = o.id := by
  unfold advance_patch
  dsimp only
  repeat' split
  all_goals rfl

theorem advance_patch_stage (today : Date) (ns os : String) (cr : Option String) (o : Opportunity) :
    (advance_patch today ns os cr o).stage = ns := by
  unfold advance_patch
  dsimp only
  repeat' split
  all_goals rfl

theorem advance_patch_next_action (today : Date) (ns os : String) (cr : Option String)
    (o : Opportunity) :
    (advance_patch today ns os cr o).next_action = some (calculate_next_action ns).1 := by
  unfold advance_patch
  dsimp only
  repeat' split
  all_goals rfl

theorem advance_patch_next_action_date (today : Date) (ns os : String) (cr : Option String)
    (o : Opportunity) :
    (advance_patch today ns os cr o).next_action_date = some (today + (calculate_next_action ns).2) := by
  unfold advance_patch
  dsimp only
  repeat' split
  all_goals rfl

theorem advance_patch_date_applied (today : Date) (ns os : String) (cr : Option String)
    (o : Opportunity) :
    (advance_patch today ns os cr o).date_applied =
      if ns == "Applied" && !(os == "Applied") then some today else o.date_applied := by
  unfold advance_patch
  dsimp only
  repeat' split
  all_goals rfl

theorem advance_patch_date_closed (today : Date) (ns os : String) (cr : Option String)
    (o : Opportunity) :
    (advance_patch today ns os cr o).date_closed =
      if ns == "Closed" then some today else o.date_closed := by
  unfold advance_patch
  dsimp only
  repeat' split
  all_goals rfl

theorem advance_patch_close_reason (today : Date) (ns os : String) (cr : Option String)
    (o : Opportunity) :
    (advance_patch today ns os cr o).close_reason =
      if ns == "Closed" then
        (match cr with
         | some r => if r == "" then o.close_reason else some r
         | none => o.close_reason)
      else o.close_reason := by
  unfold advance_patch
  dsimp only
  repeat' split
  all_goals rfl

/-- `advance_stage` on a found opportunity: the committed field update
followed by the log append. -/
theorem advance_stage_found (s : Store) (today : Date) (oid : Nat) (ns : String)
    (note cr : Option String) (opp : Opportunity) (h : get_opportunity s oid = some opp) :
    advance_stage s today oid ns note cr =
      (log_activity (update_opportunity_row s oid (advance_patch today ns opp.stage cr))
         (stage_change_entry oid opp.stage ns note (today + (calculate_next_action ns).2)), none) := by
  unfold advance_stage
  rw [h]

theorem advance_stage_logFail_found (s : Store) (today : Date) (oid : Nat) (ns : String)
    (note cr : Option String) (opp : Opportunity) (h : get_opportunity s oid = some opp) :
    advance_stage_logFail s today oid ns note cr =
      (update_opportunity_row s oid (advance_patch today ns opp.stage cr),
       some "Database error: activity_log INSERT failed") := by
  unfold advance_stage_logFail
  rw [h]

theorem get_opportunity_advance (s : Store) (today : Date) (oid : Nat) (ns : String)
    (note cr : Option String) (opp : Opportunity) (h : get_opportunity s oid = some opp) :
    get_opportunity (advance_stage s today oid ns note cr).1 oid =
      some (advance_patch today ns opp.stage cr opp) := by
  rw [advance_stage_found s today oid ns note cr opp h]
  show get_opportunity (log_activity _ _) oid = _
  rw [get_opportunity_log,
      get_opportunity_update _ _ _ (fun o => advance_patch_id today ns opp.stage cr o), h]
  rfl

theorem advance_stage_contacts (s : Store) (today : Date) (oid : Nat) (ns : String)
    (note cr : Option String) :
    (advance_stage s today oid ns note cr).1.contacts = s.contacts := by
  unfold advance_stage
  cases h : get_opportunity s oid <;> rfl

theorem advance_stage_log_of_found (s : Store) (today : Date) (oid : Nat) (ns : String)
    (note cr : Option String) (opp : Opportunity) (h : get_opportunity s oid = some opp) :
    (advance_stage s today oid ns note cr).1.activity_log =
      s.activity_log ++ [stage_change_entry oid opp.stage ns note (today + (calculate_next_action ns).2)] := by
  rw [advance_stage_found s today oid ns note cr opp h]
  rfl

/-- The stages of the transition table: any stage not among these takes
the generic fallback. -/
theorem calculate_next_action_fallback (ns : String)
    (h : ns ∉ STAGE_TRANSITIONS.map Prod.fst) :
    calculate_next_action ns = ("Review and set next step", 7) := by
  unfold calculate_next_action
  have hnone : STAGE_TRANSITIONS.lookup ns = none := by
    rw [List.lookup_eq_none_iff]
    intro p hp
    simp only [bne_iff_ne]
    intro hk
    exact h (hk ▸ List.mem_map_of_mem Prod.fst hp)
  rw [hnone]
  rfl

/-! ### Claim C1 — `date_applied` stamping -/

/-- An opportunity whose stage has moved past "Applied", with
`date_applied` stamped on day 10. -/
def c1Opp : Opportunity :=
  { id := 1, company := "Acme", role_title := "Analyst",
    stage := "Recruiter Screen", date_applied := some 10 }

def c1Store : Store := { opportunities := [c1Opp] }

/-- C1 counterexample: `date_applied` is already set (day 10) and the
stage has moved away from "Applied"; calling
`advance_stage(1, "Applied")` on day 20 re-stamps `date_applied` to
day 20, so the claim "must not change the stored date_applied" is false
— the guard in workflow.py is `old_stage != "Applied"`, not
"`date_applied` already set". -/
theorem c1_counterexample :
    c1Opp.date_applied = some 10 ∧
    (get_opportunity (advance_stage c1Store 20 1 "Applied" none none).1 1).map
      Opportunity.date_applied = some (some 20) := by
  exact ⟨rfl, rfl⟩

/-- C1 amended: `advance_stage(id, "Applied")` leaves `date_applied`
unchanged exactly when the prior stage is already "Applied" (so an
immediate repeated call is idempotent); whenever the prior stage is any
other stage — including after the stage moved away from "Applied" and
back — `date_applied` is (re-)stamped to the call date. -/
theorem c1_date_applied_amended (s : Store) (today : Date) (oid : Nat) (opp : Opportunity)
    (note cr : Option String) (h : get_opportunity s oid = some opp) :
    (get_opportunity (advance_stage s today oid "Applied" note cr).1 oid).map
        Opportunity.date_applied =
      some (if opp.stage == "Applied" then opp.date_applied else some today) := by
  rw [get_opportunity_advance s today oid "Applied" note cr opp h]
  simp only [Option.map_some']
  rw [advance_patch_date_applied]
  cases hb : (opp.stage == "Applied") <;> simp

/-- Witness for C1's amended theorem: an opportunity already in stage
"Applied" with `date_applied = 5` keeps date 5 when re-advanced to
"Applied" on day 9. -/
def c1wOpp : Opportunity :=
  { id := 1, company := "Acme", role_title := "Analyst",
    stage := "Applied", date_applied := some 5 }

def c1wStore : Store := { opportunities := [c1wOpp] }

theorem c1_witness :
    (get_opportunity (advance_stage c1wStore 9 1 "Applied" none none).1 1).map
      Opportunity.date_applied = some (some 5) := by
  have := c1_date_applied_amended c1wStore 9 1 c1wOpp none none rfl
  simpa using this

/-! ### Claim C2 — next action from the transition table, with fallback -/

/-- C2: for every existing opportunity and every `new_stage` string,
`advance_stage` succeeds and sets `next_action` / `next_action_date`
from the transition-table entry for `new_stage` (call date plus the
table's day offset), the table lookup falling back to
("Review and set next step", 7); in particular any `new_stage` not
among the seven table keys gets exactly that fallback. -/
theorem c2_next_action_from_table (s : Store) (today : Date) (oid : Nat) (ns : String)
    (note cr : Option String) (opp : Opportunity) (h : get_opportunity s oid = some opp) :
    (advance_stage s today oid ns note cr).2 = none ∧
    (get_opportunity (advance_stage s today oid ns note cr).1 oid).map
        Opportunity.next_action =
      some (some ((STAGE_TRANSITIONS.lookup ns).getD ("Review and set next step", 7)).1) ∧
    (get_opportunity (advance_stage s today oid ns note cr).1 oid).map
        Opportunity.next_action_date =
      some (some (today + ((STAGE_TRANSITIONS.lookup ns).getD ("Review and set next step", 7)).2)) ∧
    (ns ∉ STAGE_TRANSITIONS.map Prod.fst →
      calculate_next_action ns = ("Review and set next step", 7)) := by
  refine ⟨?_, ?_, ?_, calculate_next_action_fallback ns⟩
  · rw [advance_stage_found s today oid ns note cr opp h]
  · rw [get_opportunity_advance s today oid ns note cr opp h]
    simp only [Option.map_some']
    rw [advance_patch_next_action]
    rfl
  · rw [get_opportunity_advance s today oid ns note cr opp h]
    simp only [Option.map_some']
    rw [advance_patch_next_action_date]
    rfl

def c2Opp : Opportunity := { id := 1, company := "Acme", role_title := "Analyst" }

def c2Store : Store := { opportunities := [c2Opp] }

/-- Witness for C2 at the unknown stage "Telepathy Round": the call
succeeds and applies the 7-day fallback. -/
theorem c2_witness :
    (advance_stage c2Store 100 1 "Telepathy Round" none none).2 = none ∧
    (get_opportunity (advance_stage c2Store 100 1 "Telepathy Round" none none).1 1).map
        Opportunity.next_action =
      some (some ((STAGE_TRANSITIONS.lookup "Telepathy Round").getD
        ("Review and set next step", 7)).1) ∧
    (get_opportunity (advance_stage c2Store 100 1 "Telepathy Round" none none).1 1).map
        Opportunity.next_action_date =
      some (some (100 + ((STAGE_TRANSITIONS.lookup "Telepathy Round").getD
        ("Review and set next step", 7)).2)) ∧
    ("Telepathy Round" ∉ STAGE_TRANSITIONS.map Prod.fst →
      calculate_next_action "Telepathy Round" = ("Review and set next step", 7)) :=
  c2_next_action_from_table c2Store 100 1 "Telepathy Round" none none c2Opp rfl

/-! ### Claim C3 — closing stamps and close-state preservation -/

def c3Opp : Opportunity :=
  { id := 1, company := "Acme", role_title := "Analyst", stage := "Offer Pending" }

def c3Store : Store := { opportunities := [c3Opp] }

/-- C3 counterexample: `advance_stage(1, "Closed", close_reason="")`
supplies the (empty) reason `""`, but the stored `close_reason` stays
`none` rather than becoming `""` — workflow.py guards the write with
Python truthiness (`if close_reason:`), which drops an empty string. -/
theorem c3_counterexample :
    (get_opportunity (advance_stage c3Store 20 1 "Closed" none (some "")).1 1).map
        Opportunity.close_reason = some none ∧
    ¬ ((get_opportunity (advance_stage c3Store 20 1 "Closed" none (some "")).1 1).map
        Opportunity.close_reason = some (some "")) := by
  exact ⟨rfl, by decide⟩

/-- C3 amended: `advance_stage(id, "Closed", close_reason=r)` stamps
`date_closed` to the call date and stores `r` when `r` is supplied and
non-empty (an empty-string `r` is dropped by the truthiness guard); and
any subsequent `advance_stage` call to a stage other than "Closed"
leaves the stored `date_closed` and `close_reason` unchanged. -/
theorem c3_closed_amended (s : Store) (today : Date) (oid : Nat) (opp : Opportunity)
    (note : Option String) (r : String) (hr : ¬ (r = ""))
    (h : get_opportunity s oid = some opp)
    (s2 : Store) (today2 : Date) (oid2 : Nat) (opp2 : Opportunity) (ns2 : String)
    (note2 cr2 : Option String) (h2 : get_opportunity s2 oid2 = some opp2)
    (hns2 : ¬ (ns2 = "Closed")) :
    (get_opportunity (advance_stage s today oid "Closed" note (some r)).1 oid).map
        Opportunity.date_closed = some (some today) ∧
    (get_opportunity (advance_stage s today oid "Closed" note (some r)).1 oid).map
        Opportunity.close_reason = some (some r) ∧
    (get_opportunity (advance_stage s2 today2 oid2 ns2 note2 cr2).1 oid2).map
        Opportunity.date_closed = some opp2.date_closed ∧
    (get_opportunity (advance_stage s2 today2 oid2 ns2 note2 cr2).1 oid2).map
        Opportunity.close_reason = some opp2.close_reason := by
  refine ⟨?_, ?_, ?_, ?_⟩
  · rw [get_opportunity_advance s today oid "Closed" note (some r) opp h]
    simp only [Option.map_some']
    rw [advance_patch_date_closed]
    rfl
  · rw [get_opportunity_advance s today oid "Closed" note (some r) opp h]
    simp only [Option.map_some']
    rw [advance_patch_close_reason]
    simp [hr]
  · rw [get_opportunity_advance s2 today2 oid2 ns2 note2 cr2 opp2 h2]
    simp only [Option.map_some']
    rw [advance_patch_date_closed]
    simp [hns2]
  · rw [get_opportunity_advance s2 today2 oid2 ns2 note2 cr2 opp2 h2]
    simp only [Option.map_some']
    rw [advance_patch_close_reason]
    simp [hns2]

def c3wOpp : Opportunity :=
  { id := 1, company := "Acme", role_title := "Analyst", stage := "Closed",
    date_closed := some 20, close_reason := some "Accepted" }

def c3wStore : Store := { opportunities := [c3wOpp] }

/-- Witness for C3's amended theorem: closing with reason "Accepted" on
day 20 stamps both fields, and a later advance of an opportunity that
carries `date_closed = 20` / `close_reason = "Accepted"` to
"Recruiter Screen" preserves both. -/
theorem c3_witness :
    (get_opportunity (advance_stage c3Store 20 1 "Closed" none (some "Accepted")).1 1).map
        Opportunity.date_closed = some (some 20) ∧
    (get_opportunity (advance_stage c3Store 20 1 "Closed" none (some "Accepted")).1 1).map
        Opportunity.close_reason = some (some "Accepted") ∧
    (get_opportunity (advance_stage c3wStore 25 1 "Recruiter Screen" none none).1 1).map
        Opportunity.date_closed = some c3wOpp.date_closed ∧
    (get_opportunity (advance_stage c3wStore 25 1 "Recruiter Screen" none none).1 1).map
        Opportunity.close_reason = some c3wOpp.close_reason :=
  c3_closed_amended c3Store 20 1 c3Opp none "Accepted" (by decide) rfl
    c3wStore 25 1 c3wOpp "Recruiter Screen" none none rfl (by decide)

/-! ### Claim C4 — NotFound branch has zero side effects -/

/-- C4: when no opportunity has the given id, `advance_stage` raises
`ValueError` ("... not found") for every `new_stage`, leaves the store
exactly as it was — no opportunity write, no activity-log append — and
the error carries the id. -/
theorem c4_notfound_no_side_effects (s : Store) (today : Date) (oid : Nat) (ns : String)
    (note cr : Option String) (h : get_opportunity s oid = none) :
    advance_stage s today oid ns note cr =
      (s, some ("Opportunity " ++ toString oid ++ " not found.")) := by
  unfold advance_stage
  rw [h]

def c4Store : Store := { }

/-- Witness for C4: advancing the absent opportunity 42 in an empty
store fails with the NotFound message and changes nothing. -/
theorem c4_witness :
    advance_stage c4Store 0 42 "Applied" none none =
      (c4Store, some ("Opportunity " ++ toString 42 ++ " not found.")) :=
  c4_notfound_no_side_effects c4Store 0 42 "Applied" none none rfl

/-! ### Claim C10 — field update and log append are separate writes -/

/-- C10: within one `advance_stage` call the opportunity field update
and the "Stage Change" log append are two separate committed writes
with no enclosing transaction: on the run where the log append fails
(`advance_stage_logFail`), the error propagates while the new
stage / next_action / next_action_date are already persisted and the
activity log is untouched — no rollback; on the normal run the store
holds the same field update plus exactly one appended entry. -/
theorem c10_two_writes_no_rollback (s : Store) (today : Date) (oid : Nat) (ns : String)
    (note cr : Option String) (opp : Opportunity) (h : get_opportunity s oid = some opp) :
    ((advance_stage_logFail s today oid ns note cr).2).isSome = true ∧
    (advance_stage_logFail s today oid ns note cr).1.activity_log = s.activity_log ∧
    (get_opportunity (advance_stage_logFail s today oid ns note cr).1 oid).map
        Opportunity.stage = some ns ∧
    (get_opportunity (advance_stage_logFail s today oid ns note cr).1 oid).map
        Opportunity.next_action = some (some (calculate_next_action ns).1) ∧
    (get_opportunity (advance_stage_logFail s today oid ns note cr).1 oid).map
        Opportunity.next_action_date = some (some (today + (calculate_next_action ns).2)) ∧
    (advance_stage s today oid ns note cr).1.opportunities =
      (advance_stage_logFail s today oid ns note cr).1.opportunities ∧
    (advance_stage s today oid ns note cr).1.activity_log =
      s.activity_log ++ [stage_change_entry oid opp.stage ns note
        (today + (calculate_next_action ns).2)] := by
  have hfound := advance_stage_logFail_found s today oid ns note cr opp h
  have hget : get_opportunity (advance_stage_logFail s today oid ns note cr).1 oid =
      some (advance_patch today ns opp.stage cr opp) := by
    rw [hfound]
    show get_opportunity (update_opportunity_row s oid _) oid = _
    rw [get_opportunity_update _ _ _ (fun o => advance_patch_id today ns opp.stage cr o), h]
    rfl
  refine ⟨?_, ?_, ?_, ?_, ?_, ?_, advance_stage_log_of_found s today oid ns note cr opp h⟩
  · rw [hfound]
    rfl
  · rw [hfound]
    rfl
  · rw [hget]
    simp only [Option.map_some']
    rw [advance_patch_stage]
  · rw [hget]
    simp only [Option.map_some']
    rw [advance_patch_next_action]
  · rw [hget]
    simp only [Option.map_some']
    rw [advance_patch_next_action_date]
  · rw [hfound, advance_stage_found s today oid ns note cr opp h]
    rfl

def c10Opp : Opportunity := { id := 1, company := "Acme", role_title := "Analyst" }

def c10Store : Store := { opportunities := [c10Opp] }

/-- Witness for C10 at a concrete store: advancing opportunity 1 to
"Applied" on day 30 with a failing log append persists the field
update, leaves the log untouched, and surfaces the error. -/
theorem c10_witness :
    ((advance_stage_logFail c10Store 30 1 "Applied" none none).2).isSome = true ∧
    (advance_stage_logFail c10Store 30 1 "Applied" none none).1.activity_log =
      c10Store.activity_log ∧
    (get_opportunity (advance_stage_logFail c10Store 30 1 "Applied" none none).1 1).map
        Opportunity.stage = some "Applied" ∧
    (get_opportunity (advance_stage_logFail c10Store 30 1 "Applied" none none).1 1).map
        Opportunity.next_action = some (some (calculate_next_action "Applied").1) ∧
    (get_opportunity (advance_stage_logFail c10Store 30 1 "Applied" none none).1 1).map
        Opportunity.next_action_date =
      some (some (30 + (calculate_next_action "Applied").2)) ∧
    (advance_stage c10Store 30 1 "Applied" none none).1.opportunities =
      (advance_stage_logFail c10Store 30 1 "Applied" none none).1.opportunities ∧
    (advance_stage c10Store 30 1 "Applied" none none).1.activity_log =
      c10Store.activity_log ++ [stage_change_entry 1 c10Opp.stage "Applied" none
        (30 + (calculate_next_action "Applied").2)] :=
  c10_two_writes_no_rollback c10Store 30 1 "Applied" none none c10Opp rfl

/-! ### Claim C5 — follow-up queue -/

theorem followup_row?_eq_some (s : Store) (today : Date) (c : Contact) (r : FollowupRow) :
    followup_row? s today c = some r ↔
      ∃ oid, c.opportunity_id = some oid ∧ ∃ o, get_opportunity s oid = some o ∧
        c.response_status = "Pending" ∧
        (c.outreach_day0 = some (today - 3) ∨ c.outreach_day0 = some (today - 7)) ∧
        ¬ (o.stage = "Closed") ∧ r = mkFollowupRow c o (today - 3) (today - 7) := by
  unfold followup_row?
  cases hoid : c.opportunity_id with
  | none => simp
  | some oid =>
    cases ho : get_opportunity s oid with
    | none => simp [ho]
    | some o =>
      simp only [ho, Option.some.injEq]
      constructor
      · intro hsome
        by_cases hcond : (c.response_status == "Pending"
            && (c.outreach_day0 == some (today - 3) || c.outreach_day0 == some (today - 7))
            && !(o.stage == "Closed")) = true
        · rw [if_pos hcond] at hsome
          simp only [Bool.and_eq_true, Bool.or_eq_true, beq_iff_eq,
            Bool.not_eq_true', beq_eq_false_iff_ne] at hcond
          exact ⟨oid, rfl, o, ho, hcond.1.1, hcond.1.2, hcond.2,
            (Option.some.injEq _ _).mp hsome.symm⟩
        · rw [if_neg hcond] at hsome
          cases hsome
      · rintro ⟨oid2, hoid2, o2, ho2, hp, hd, hc, hr⟩
        cases hoid2
        rw [ho] at ho2
        cases ho2
        have hcond : (c.response_status == "Pending"
            && (c.outreach_day0 == some (today - 3) || c.outreach_day0 == some (today - 7))
            && !(o.stage == "Closed")) = true := by
          simp only [Bool.and_eq_true, Bool.or_eq_true, beq_iff_eq,
            Bool.not_eq_true', beq_eq_false_iff_ne]
          exact ⟨⟨hp, hd⟩, hc⟩
        rw [if_pos hcond, hr]

/-- C5: `get_followup_queue` returns exactly the rows built from
contacts with `response_status = "Pending"`, `outreach_day0` exactly
today−3 or exactly today−7 (so a contact at 4 or 8 days is not a
member), joined to an existing opportunity not in stage "Closed"; the
result is ordered by `outreach_day0` ascending, and each row is tagged
"Day 3 follow-up due" or "Day 7 follow-up due" according to which
cadence point its `outreach_day0` matched. -/
theorem c5_followup_queue (s : Store) (today : Date) :
    (∀ r : FollowupRow, r ∈ get_followup_queue s today ↔
       ∃ c, c ∈ s.contacts ∧ ∃ oid, c.opportunity_id = some oid ∧
         ∃ o, get_opportunity s oid = some o ∧
           c.response_status = "Pending" ∧
           (c.outreach_day0 = some (today - 3) ∨ c.outreach_day0 = some (today - 7)) ∧
           ¬ (o.stage = "Closed") ∧ r = mkFollowupRow c o (today - 3) (today - 7)) ∧
    List.Sorted rowLE (get_followup_queue s today) ∧
    (∀ r ∈ get_followup_queue s today,
       (r.outreach_day0 = some (today - 3) → r.followup_reason = some "Day 3 follow-up due") ∧
       (r.outreach_day0 = some (today - 7) → r.followup_reason = some "Day 7 follow-up due")) := by
  have hmem : ∀ r : FollowupRow, r ∈ get_followup_queue s today ↔
      ∃ c, c ∈ s.contacts ∧ followup_row? s today c = some r := by
    intro r
    unfold get_followup_queue
    rw [(List.perm_insertionSort rowLE (followup_filter s today)).mem_iff]
    unfold followup_filter
    exact List.mem_filterMap
  refine ⟨?_, ?_, ?_⟩
  · intro r
    rw [hmem r]
    constructor
    · rintro ⟨c, hc, hrow⟩
      exact ⟨c, hc, (followup_row?_eq_some s today c r).mp hrow⟩
    · rintro ⟨c, hc, hrest⟩
      exact ⟨c, hc, (followup_row?_eq_some s today c r).mpr hrest⟩
  · exact List.sorted_insertionSort rowLE (followup_filter s today)
  · intro r hr
    obtain ⟨c, _, hrow⟩ := (hmem r).mp hr
    obtain ⟨oid, _, o, _, _, hd, _, hmk⟩ := (followup_row?_eq_some s today c r).mp hrow
    have hday0 : r.outreach_day0 = c.outreach_day0 := by
      rw [hmk]
      rfl
    constructor
    · intro h3
      rw [hmk]
      unfold mkFollowupRow
      dsimp only
      rw [hday0] at h3
      rw [h3]
      simp
    · intro h7
      rw [hmk]
      unfold mkFollowupRow
      dsimp only
      rw [hday0] at h7
      rw [h7]
      have hne : ¬ (today - 7 = today - 3) :=
        fun hh => absurd (sub_right_inj.mp hh) (by decide)
      simp [hne]

def c5Opp : Opportunity := { id := 1, company := "Acme", role_title := "Analyst", stage := "Applied" }

def c5c1 : Contact :=
  { id := 5, opportunity_id := some 1, full_name := "Bo",
    outreach_day0 := some 7, response_status := "Pending" }

def c5c2 : Contact :=
  { id := 6, opportunity_id := some 1, full_name := "Cy",
    outreach_day0 := some 3, response_status := "Pending" }

def c5c3 : Contact :=
  { id := 7, opportunity_id := some 1, full_name := "Dd",
    outreach_day0 := some 6, response_status := "Pending" }

def c5Store : Store := { opportunities := [c5Opp], contacts := [c5c1, c5c2, c5c3] }

/-- Witness for C5 on day 10: the day-3 contact (day0 = 7) and the
day-7 contact (day0 = 3) are members, the sortedness holds, and the
contact at 4 days (day0 = 6) is excluded via the membership
characterization. -/
theorem c5_witness :
    List.Sorted rowLE (get_followup_queue c5Store 10) ∧
    (mkFollowupRow c5c1 c5Opp (10 - 3) (10 - 7) ∈ get_followup_queue c5Store 10) ∧
    (mkFollowupRow c5c3 c5Opp (10 - 3) (10 - 7) ∉ get_followup_queue c5Store 10) := by
  refine ⟨(c5_followup_queue c5Store 10).2.1, ?_, ?_⟩
  · rw [(c5_followup_queue c5Store 10).1 (mkFollowupRow c5c1 c5Opp (10 - 3) (10 - 7))]
    exact ⟨c5c1, by decide, 1, rfl, c5Opp, rfl, rfl, Or.inl (by decide), by decide, rfl⟩
  · rw [(c5_followup_queue c5Store 10).1 (mkFollowupRow c5c3 c5Opp (10 - 3) (10 - 7))]
    rintro ⟨c, hc, oid, hoid, o, ho, hp, hd, hcl, hmk⟩
    have hcd : c.outreach_day0 = (mkFollowupRow c5c3 c5Opp (10 - 3) (10 - 7)).outreach_day0 := by
      rw [hmk]
      rfl
    rw [hcd] at hd
    revert hd
    decide

/-! ### Helper lemmas for the outreach-mark routes -/

/-- `mark_outreach_sent` on a contact with `outreach_day0` unset whose
opportunity exists and is in stage "Prospect": day0 is stamped, the
opportunity is advanced to "Warm Lead", and "Outreach Sent" is
logged. -/
theorem mark_outreach_sent_first (s : Store) (today : Date) (cid oid : Nat)
    (c : Contact) (o : Opportunity)
    (hc : get_contact s cid = some c) (hd0 : c.outreach_day0 = none)
    (hoid : c.opportunity_id = some oid) (ho : get_opportunity s oid = some o)
    (hstage : o.stage = "Prospect") :
    mark_outreach_sent s today cid =
      (log_activity
        (log_activity
          (update_opportunity_row
            (update_contact_row s cid (fun cc => { cc with outreach_day0 := some today }))
            oid (advance_patch today "Warm Lead" o.stage none))
          (stage_change_entry oid o.stage "Warm Lead" (some "Outreach sent")
            (today + (calculate_next_action "Warm Lead").2)))
        (outreach_sent_entry c), none) := by
  have ho1 : get_opportunity (update_contact_row s cid
      (fun cc => { cc with outreach_day0 := some today })) oid = some o := ho
  unfold mark_outreach_sent
  rw [hc]
  simp only [hd0, hoid, beq_self_eq_true, if_true, ho1, hstage]
  rw [advance_stage_found _ today oid "Warm Lead" (some "Outreach sent") none o ho1, hstage]

/-- `mark_outreach_sent` on a contact whose `outreach_day0` is already
set: nothing is stamped, no stage change is triggered, only the
"Outreach Sent" log entry is appended. -/
theorem mark_outreach_sent_already (s : Store) (today : Date) (cid : Nat) (c : Contact)
    (hc : get_contact s cid = some c) (hd0 : c.outreach_day0.isSome = true) :
    mark_outreach_sent s today cid = (log_activity s (outreach_sent_entry c), none) := by
  obtain ⟨d, hd⟩ := Option.isSome_iff_exists.mp hd0
  unfold mark_outreach_sent
  rw [hc]
  simp only [hd]
  rfl

/-- `mark_followup` when at least 6 days have passed since day0: stamps
`outreach_day7 := today` (with no already-set check) and logs. -/
theorem mark_followup_day7 (s : Store) (today : Date) (cid : Nat) (c : Contact) (d0 : Date)
    (hc : get_contact s cid = some c) (hd0 : c.outreach_day0 = some d0)
    (h6 : 6 ≤ today - d0) :
    mark_followup s today cid =
      log_activity (update_contact_row s cid (fun cc => { cc with outreach_day7 := some today }))
        { activity_type := "Follow-Up Sent",
          description := "Day 7 follow-up sent to " ++ c.full_name,
          opportunity_id := c.opportunity_id, contact_id := some cid, metadata := [] } := by
  unfold mark_followup
  rw [hc]
  simp only [hd0]
  rw [if_pos h6]

/-- `mark_followup` when fewer than 6 days have passed since day0:
stamps `outreach_day3 := today` (with no already-set check) and logs. -/
theorem mark_followup_day3 (s : Store) (today : Date) (cid : Nat) (c : Contact) (d0 : Date)
    (hc : get_contact s cid = some c) (hd0 : c.outreach_day0 = some d0)
    (h6 : today - d0 < 6) :
    mark_followup s today cid =
      log_activity (update_contact_row s cid (fun cc => { cc with outreach_day3 := some today }))
        { activity_type := "Follow-Up Sent",
          description := "Day 3 follow-up sent to " ++ c.full_name,
          opportunity_id := c.opportunity_id, contact_id := some cid, metadata := [] } := by
  unfold mark_followup
  rw [hc]
  simp only [hd0]
  rw [if_neg (not_le.mpr h6)]

/-! ### Claim C6 — first outreach advances Prospect to Warm Lead, once -/

/-- C6: on a contact with unset `outreach_day0` whose opportunity is in
stage "Prospect", `mark_outreach_sent` stamps `outreach_day0 := today`
and advances the opportunity to "Warm Lead" as a side effect; invoking
it a second time (any later day) leaves `outreach_day0` at the first
date and triggers no further stage change — on the second call the
contacts and opportunities tables are unchanged (only an activity-log
entry is appended). -/
theorem c6_first_outreach (s : Store) (today today2 : Date) (cid oid : Nat)
    (c : Contact) (o : Opportunity)
    (hc : get_contact s cid = some c) (hd0 : c.outreach_day0 = none)
    (hoid : c.opportunity_id = some oid) (ho : get_opportunity s oid = some o)
    (hstage : o.stage = "Prospect") :
    (mark_outreach_sent s today cid).2 = none ∧
    (get_contact (mark_outreach_sent s today cid).1 cid).map Contact.outreach_day0 =
      some (some today) ∧
    (get_opportunity (mark_outreach_sent s today cid).1 oid).map Opportunity.stage =
      some "Warm Lead" ∧
    (mark_outreach_sent (mark_outreach_sent s today cid).1 today2 cid).1.contacts =
      (mark_outreach_sent s today cid).1.contacts ∧
    (mark_outreach_sent (mark_outreach_sent s today cid).1 today2 cid).1.opportunities =
      (mark_outreach_sent s today cid).1.opportunities ∧
    (mark_outreach_sent (mark_outreach_sent s today cid).1 today2 cid).2 = none := by
  have hfirst := mark_outreach_sent_first s today cid oid c o hc hd0 hoid ho hstage
  have hgetc : get_contact (mark_outreach_sent s today cid).1 cid =
      some { c with outreach_day0 := some today } := by
    rw [hfirst]
    show get_contact (update_contact_row s cid _) cid = _
    rw [get_contact_update s cid (fun cc => { cc with outreach_day0 := some today })
      (fun cc => rfl), hc]
    rfl
  have hgeto : get_opportunity (mark_outreach_sent s today cid).1 oid =
      some (advance_patch today "Warm Lead" o.stage none o) := by
    rw [hfirst]
    show get_opportunity (update_opportunity_row _ oid _) oid = _
    rw [get_opportunity_update _ _ _ (fun oo => advance_patch_id today "Warm Lead" o.stage none oo),
        get_opportunity_update_contact, ho]
    rfl
  have hsecond := mark_outreach_sent_already (mark_outreach_sent s today cid).1 today2 cid
    { c with outreach_day0 := some today } hgetc rfl
  refine ⟨?_, ?_, ?_, ?_, ?_, ?_⟩
  · rw [hfirst]
  · rw [hgetc]
    rfl
  · rw [hgeto]
    simp only [Option.map_some']
    rw [advance_patch_stage]
  · rw [hsecond]
    rfl
  · rw [hsecond]
    rfl
  · rw [hsecond]

def c6Opp : Opportunity := { id := 1, company := "Acme", role_title := "Analyst" }

def c6Contact : Contact := { id := 5, opportunity_id := some 1, full_name := "Bo" }

def c6Store : Store := { opportunities := [c6Opp], contacts := [c6Contact] }

/-- Witness for C6: contact 5 (no outreach yet) attached to opportunity
1 in stage "Prospect"; marking outreach on day 10 stamps day0 = 10 and
advances the opportunity to "Warm Lead"; marking again on day 12
changes neither table. -/
theorem c6_witness :
    (mark_outreach_sent c6Store 10 5).2 = none ∧
    (get_contact (mark_outreach_sent c6Store 10 5).1 5).map Contact.outreach_day0 =
      some (some 10) ∧
    (get_opportunity (mark_outreach_sent c6Store 10 5).1 1).map Opportunity.stage =
      some "Warm Lead" ∧
    (mark_outreach_sent (mark_outreach_sent c6Store 10 5).1 12 5).1.contacts =
      (mark_outreach_sent c6Store 10 5).1.contacts ∧
    (mark_outreach_sent (mark_outreach_sent c6Store 10 5).1 12 5).1.opportunities =
      (mark_outreach_sent c6Store 10 5).1.opportunities ∧
    (mark_outreach_sent (mark_outreach_sent c6Store 10 5).1 12 5).2 = none :=
  c6_first_outreach c6Store 10 12 5 1 c6Contact c6Opp rfl rfl rfl rfl rfl

/-! ### Claim C7 — outreach slots written at most once? -/

def c7Opp : Opportunity := { id := 1, company := "Acme", role_title := "Analyst", stage := "Warm Lead" }

/-- A contact whose day-3 follow-up slot is already set (day 3). -/
def c7Contact : Contact :=
  { id := 5, opportunity_id := some 1, full_name := "Bo",
    outreach_day0 := some 0, outreach_day3 := some 3, response_status := "Pending" }

def c7Store : Store := { opportunities := [c7Opp], contacts := [c7Contact] }

/-- C7 counterexample: contact 5 already has `outreach_day3 = 3`;
calling `mark_followup` on day 5 (fewer than 6 days since day0)
overwrites the slot to 5 — `mark_followup` has no already-set guard, so
"once a slot holds a date, no follow-up-mark operation overwrites it"
is false. -/
theorem c7_counterexample :
    c7Contact.outreach_day3 = some 3 ∧
    (get_contact (mark_followup c7Store 5 5) 5).map Contact.outreach_day3 =
      some (some 5) := by
  exact ⟨rfl, rfl⟩

/-- The slot-ordering invariant the marking operations maintain on a
contact: day-3/day-7 slots exist only once day0 does, the day-3 slot
lies in the window [day0, day0 + 6), and the day-7 slot at or beyond
day0 + 6 — exactly the windows in which `mark_followup` writes each
slot (`days_since >= 6` picks day7, otherwise day3, each stamped to the
current date). -/
def slots_ordered (c : Contact) : Prop :=
  match c.outreach_day0, c.outreach_day3, c.outreach_day7 with
  | none, none, none => True
  | none, some _, _ => False
  | none, none, some _ => False
  | some _, none, none => True
  | some d0, some d3, none => d0 ≤ d3 ∧ d3 < d0 + 6
  | some d0, none, some d7 => d0 + 6 ≤ d7
  | some d0, some d3, some d7 => (d0 ≤ d3 ∧ d3 < d0 + 6) ∧ d0 + 6 ≤ d7

/-- The claim's ordering: day0 ≤ day3 ≤ day7 whenever the slots are
present. -/
def slots_monotone (c : Contact) : Prop :=
  match c.outreach_day0, c.outreach_day3, c.outreach_day7 with
  | some d0, some d3, none => d0 ≤ d3
  | some d0, none, some d7 => d0 ≤ d7
  | some d0, some d3, some d7 => d0 ≤ d3 ∧ d0 ≤ d7 ∧ d3 ≤ d7
  | none, some d3, some d7 => d3 ≤ d7
  | _, _, _ => True

theorem date_add6_le {t d : Int} (h : 6 ≤ t - d) : d + 6 ≤ t := by omega

theorem date_lt_add6 {t d : Int} (h : t - d < 6) : t < d + 6 := by omega

theorem date_le_of_add6_le {a b : Int} (h : a + 6 ≤ b) : a ≤ b := by omega

theorem slots_monotone_of_ordered (c : Contact) (h : slots_ordered c) : slots_monotone c := by
  unfold slots_ordered at h
  unfold slots_monotone
  rcases h0 : c.outreach_day0 with _ | d0 <;>
    rcases h3 : c.outreach_day3 with _ | d3 <;>
      rcases h7 : c.outreach_day7 with _ | d7 <;>
        (try rw [h0] at h) <;> (try rw [h3] at h) <;> (try rw [h7] at h)
  · exact trivial
  · exact (show False from h).elim
  · exact (show False from h).elim
  · exact (show False from h).elim
  · exact trivial
  · exact date_le_of_add6_le h
  · have h2 : d0 ≤ d3 ∧ d3 < d0 + 6 := h
    exact h2.1
  · have h2 : (d0 ≤ d3 ∧ d3 < d0 + 6) ∧ d0 + 6 ≤ d7 := h
    exact ⟨h2.1.1, date_le_of_add6_le h2.2, le_of_lt (lt_of_lt_of_le h2.1.2 h2.2)⟩

theorem slots_ordered_set_day7 (c : Contact) (d0 t : Date)
    (h0 : c.outreach_day0 = some d0) (hord : slots_ordered c) (h6 : d0 + 6 ≤ t) :
    slots_ordered { c with outreach_day7 := some t } := by
  unfold slots_ordered at hord ⊢
  dsimp only
  rw [h0] at hord ⊢
  rcases h3 : c.outreach_day3 with _ | d3 <;> (try rw [h3] at hord)
  · exact h6
  · rcases h7 : c.outreach_day7 with _ | d7 <;> (try rw [h7] at hord)
    · have h2 : d0 ≤ d3 ∧ d3 < d0 + 6 := hord
      exact ⟨h2, h6⟩
    · have h2 : (d0 ≤ d3 ∧ d3 < d0 + 6) ∧ d0 + 6 ≤ d7 := hord
      exact ⟨h2.1, h6⟩

theorem slots_ordered_set_day3 (c : Contact) (d0 t : Date)
    (h0 : c.outreach_day0 = some d0) (hord : slots_ordered c)
    (hge : d0 ≤ t) (hlt : t < d0 + 6) :
    slots_ordered { c with outreach_day3 := some t } := by
  unfold slots_ordered at hord ⊢
  dsimp only
  rw [h0] at hord ⊢
  rcases h7 : c.outreach_day7 with _ | d7 <;> (try rw [h7] at hord)
  · exact ⟨hge, hlt⟩
  · rcases h3 : c.outreach_day3 with _ | d3 <;> (try rw [h3] at hord)
    · have h2 : d0 + 6 ≤ d7 := hord
      exact ⟨⟨hge, hlt⟩, h2⟩
    · have h2 : (d0 ≤ d3 ∧ d3 < d0 + 6) ∧ d0 + 6 ≤ d7 := hord
      exact ⟨⟨hge, hlt⟩, h2.2⟩

theorem slots_ordered_set_day0 (c : Contact) (t : Date)
    (h0 : c.outreach_day0 = none) (hord : slots_ordered c) :
    slots_ordered { c with outreach_day0 := some t } := by
  unfold slots_ordered at hord ⊢
  dsimp only
  rw [h0] at hord
  rcases h3 : c.outreach_day3 with _ | d3 <;> (try rw [h3] at hord)
  · rcases h7 : c.outreach_day7 with _ | d7 <;> (try rw [h7] at hord)
    · exact trivial
    · exact (show False from hord).elim
  · exact (show False from hord).elim

/-- `mark_followup` with `outreach_day0` unset: redirect, no write at
all. -/
theorem mark_followup_nop (s : Store) (today : Date) (cid : Nat) (c : Contact)
    (hc : get_contact s cid = some c) (hd0 : c.outreach_day0 = none) :
    mark_followup s today cid = s := by
  unfold mark_followup
  rw [hc]
  simp only [hd0]

/-- The contacts table after `mark_outreach_sent` on a first outreach:
whatever the opportunity branch does (it touches only the opportunities
table and the log), the contacts table is exactly the day0-stamped
update. -/
theorem mark_outreach_sent_first_contacts (s : Store) (today : Date) (cid : Nat) (c : Contact)
    (hc : get_contact s cid = some c) (hd0 : c.outreach_day0 = none) :
    (mark_outreach_sent s today cid).1.contacts =
      (update_contact_row s cid (fun cc => { cc with outreach_day0 := some today })).contacts := by
  unfold mark_outreach_sent
  rw [hc]
  simp only [hd0, beq_self_eq_true, if_true]
  cases hoid : c.opportunity_id with
  | none => rfl
  | some oid =>
    dsimp only
    cases ho : get_opportunity (update_contact_row s cid
        (fun cc => { cc with outreach_day0 := some today })) oid with
    | none => rfl
    | some o =>
      dsimp only
      by_cases hst : (o.stage == "Prospect") = true
      · rw [if_pos hst,
          advance_stage_found _ today oid "Warm Lead" (some "Outreach sent") none o ho]
        rfl
      · rw [if_neg hst]
        rfl

/-- The contact row stored by `mark_outreach_sent` on a first outreach:
`outreach_day0 := today` and nothing else changed. -/
theorem get_contact_mark_outreach_first (s : Store) (today : Date) (cid : Nat) (c : Contact)
    (hc : get_contact s cid = some c) (hd0 : c.outreach_day0 = none) :
    get_contact (mark_outreach_sent s today cid).1 cid =
      some { c with outreach_day0 := some today } := by
  have hpatched : get_contact (update_contact_row s cid
      (fun cc => { cc with outreach_day0 := some today })) cid =
      some { c with outreach_day0 := some today } := by
    rw [get_contact_update s cid (fun cc => { cc with outreach_day0 := some today })
      (fun cc => rfl), hc]
    rfl
  show (mark_outreach_sent s today cid).1.contacts.find? (fun cc => cc.id == cid) =
    some { c with outreach_day0 := some today }
  rw [mark_outreach_sent_first_contacts s today cid c hc hd0]
  exact hpatched

/-- C7 amended: `outreach_day0`, once set, is never overwritten — the
outreach-mark then leaves the contacts table entirely unchanged, and
`mark_followup` preserves day0; but `mark_followup` writes the day-7
slot (`outreach_day7 := today` when at least 6 days have passed since
day0) or the day-3 slot (`outreach_day3 := today` otherwise)
unconditionally, overwriting any already-set value in that slot.  The
stored dates nevertheless satisfy day0 ≤ day3 ≤ day7 whenever present:
both marking operations preserve the slot-ordering invariant (day3
within [day0, day0 + 6), day7 at or beyond day0 + 6), and with it the
claimed ordering, provided calls come no earlier than the stored
day0. -/
theorem c7_slots_amended (s : Store) (today : Date) (cid : Nat) (c : Contact)
    (hc : get_contact s cid = some c) :
    (∀ d0 : Date, c.outreach_day0 = some d0 →
      (mark_outreach_sent s today cid).1.contacts = s.contacts ∧
      (get_contact (mark_followup s today cid) cid).map Contact.outreach_day0 =
        some (some d0) ∧
      (6 ≤ today - d0 →
        (get_contact (mark_followup s today cid) cid).map Contact.outreach_day7 =
          some (some today)) ∧
      (today - d0 < 6 →
        (get_contact (mark_followup s today cid) cid).map Contact.outreach_day3 =
          some (some today))) ∧
    (slots_ordered c → (∀ d0 : Date, c.outreach_day0 = some d0 → d0 ≤ today) →
      ∀ c2 : Contact, get_contact (mark_followup s today cid) cid = some c2 →
        slots_ordered c2 ∧ slots_monotone c2) ∧
    (slots_ordered c →
      ∀ c2 : Contact, get_contact (mark_outreach_sent s today cid).1 cid = some c2 →
        slots_ordered c2 ∧ slots_monotone c2) := by
  refine ⟨?_, ?_, ?_⟩
  · intro d0 hd0
    have hset : c.outreach_day0.isSome = true := by rw [hd0]; rfl
    refine ⟨?_, ?_, ?_, ?_⟩
    · rw [mark_outreach_sent_already s today cid c hc hset]
      rfl
    · by_cases h6 : 6 ≤ today - d0
      · rw [mark_followup_day7 s today cid c d0 hc hd0 h6]
        show (get_contact (update_contact_row s cid _) cid).map _ = _
        rw [get_contact_update s cid (fun cc => { cc with outreach_day7 := some today })
          (fun cc => rfl), hc]
        simp only [Option.map_some']
        rw [hd0]
      · rw [mark_followup_day3 s today cid c d0 hc hd0 (not_le.mp h6)]
        show (get_contact (update_contact_row s cid _) cid).map _ = _
        rw [get_contact_update s cid (fun cc => { cc with outreach_day3 := some today })
          (fun cc => rfl), hc]
        simp only [Option.map_some']
        rw [hd0]
    · intro h6
      rw [mark_followup_day7 s today cid c d0 hc hd0 h6]
      show (get_contact (update_contact_row s cid _) cid).map _ = _
      rw [get_contact_update s cid (fun cc => { cc with outreach_day7 := some today })
        (fun cc => rfl), hc]
      rfl
    · intro h6
      rw [mark_followup_day3 s today cid c d0 hc hd0 h6]
      show (get_contact (update_contact_row s cid _) cid).map _ = _
      rw [get_contact_update s cid (fun cc => { cc with outreach_day3 := some today })
        (fun cc => rfl), hc]
      rfl
  · intro hord hclock c2 hc2
    rcases hd0case : c.outreach_day0 with _ | d0
    · rw [mark_followup_nop s today cid c hc hd0case, hc] at hc2
      injection hc2 with h2
      subst h2
      exact ⟨hord, slots_monotone_of_ordered c hord⟩
    · have hd0le : d0 ≤ today := hclock d0 hd0case
      by_cases h6 : 6 ≤ today - d0
      · have hval : get_contact (mark_followup s today cid) cid =
            some { c with outreach_day7 := some today } := by
          rw [mark_followup_day7 s today cid c d0 hc hd0case h6, get_contact_log,
            get_contact_update s cid (fun cc => { cc with outreach_day7 := some today })
              (fun cc => rfl), hc]
          rfl
        rw [hval] at hc2
        injection hc2 with h2
        subst h2
        have hord2 := slots_ordered_set_day7 c d0 today hd0case hord (date_add6_le h6)
        exact ⟨hord2, slots_monotone_of_ordered _ hord2⟩
      · have hlt : today - d0 < 6 := not_le.mp h6
        have hval : get_contact (mark_followup s today cid) cid =
            some { c with outreach_day3 := some today } := by
          rw [mark_followup_day3 s today cid c d0 hc hd0case hlt, get_contact_log,
            get_contact_update s cid (fun cc => { cc with outreach_day3 := some today })
              (fun cc => rfl), hc]
          rfl
        rw [hval] at hc2
        injection hc2 with h2
        subst h2
        have hord2 := slots_ordered_set_day3 c d0 today hd0case hord hd0le (date_lt_add6 hlt)
        exact ⟨hord2, slots_monotone_of_ordered _ hord2⟩
  · intro hord c2 hc2
    rcases hd0case : c.outreach_day0 with _ | d0
    · rw [get_contact_mark_outreach_first s today cid c hc hd0case] at hc2
      injection hc2 with h2
      subst h2
      have hord2 := slots_ordered_set_day0 c today hd0case hord
      exact ⟨hord2, slots_monotone_of_ordered _ hord2⟩
    · have hset : c.outreach_day0.isSome = true := by rw [hd0case]; rfl
      have hval : get_contact (mark_outreach_sent s today cid).1 cid = some c := by
        rw [mark_outreach_sent_already s today cid c hc hset]
        exact hc
      rw [hval] at hc2
      injection hc2 with h2
      subst h2
      exact ⟨hord, slots_monotone_of_ordered c hord⟩

/-- Witness for C7's amended theorem at contact 5 of `c7Store` on day
9 (9 days since day0 = 0): outreach-mark leaves contacts unchanged,
day0 survives `mark_followup`, the day-7 slot is stamped to 9, and the
contact stored after the follow-up mark satisfies the slot-ordering
invariant and day0 ≤ day3 ≤ day7. -/
theorem c7_witness :
    (mark_outreach_sent c7Store 9 5).1.contacts = c7Store.contacts ∧
    (get_contact (mark_followup c7Store 9 5) 5).map Contact.outreach_day0 =
      some (some 0) ∧
    (6 ≤ (9 : Date) - 0 →
      (get_contact (mark_followup c7Store 9 5) 5).map Contact.outreach_day7 =
        some (some 9)) ∧
    ((9 : Date) - 0 < 6 →
      (get_contact (mark_followup c7Store 9 5) 5).map Contact.outreach_day3 =
        some (some 9)) ∧
    slots_ordered { c7Contact with outreach_day7 := some 9 } ∧
    slots_monotone { c7Contact with outreach_day7 := some 9 } := by
  have h := c7_slots_amended c7Store 9 5 c7Contact rfl
  have h1 := h.1 0 rfl
  have h2 := h.2.1 ⟨by decide, by decide⟩
    (fun d0 hd => by
      have hd2 : some (0 : Date) = some d0 := hd
      injection hd2 with h3
      rw [← h3]
      decide)
    { c7Contact with outreach_day7 := some 9 } rfl
  exact ⟨h1.1, h1.2.1, h1.2.2.1, h1.2.2.2, h2.1, h2.2⟩

/-! ### Claim C8 — JSON parse failure has zero side effects; fences stripped -/

/-- C8: for a JSON-shaped AI task (`score_fit`), when the model response
is not valid JSON after fence stripping (`parse` yields `none`), the
operation fails with the parse error and performs no store write at all
— no Opportunity field, no "AI Action" log entry; when the response is
valid JSON (possibly wrapped in a markdown code fence, which
`strip_markdown_fences` removes, as the concrete fenced example shows),
the parsed structure is returned. -/
theorem c8_parse_error_no_side_effects {J : Type} (parse : String → Option J) (s : Store)
    (oid : Option Nat) (text : String) (log_ok : Bool) :
    (parse (strip_markdown_fences text) = none →
      score_fit parse s oid (Except.ok text) log_ok = (s, Except.error "ParseError")) ∧
    (∀ j : J, parse (strip_markdown_fences text) = some j →
      (score_fit parse s oid (Except.ok text) log_ok).2 = Except.ok j) ∧
    strip_markdown_fences "```json\nPAYLOAD\n```" = "PAYLOAD" := by
  have h1 : score_fit parse s oid (Except.ok text) log_ok =
      (match parse (strip_markdown_fences text) with
       | none => (s, Except.error "ParseError")
       | some result => (_log_ai_action s log_ok "score_fit" oid, Except.ok result)) := rfl
  refine ⟨?_, ?_, by decide⟩
  · intro hnone
    rw [h1, hnone]
  · intro j hj
    rw [h1, hj]

/-- A concrete JSON decoder stub for the witness: accepts exactly the
payload the fenced example strips down to. -/
def c8_parse : String → Option Nat :=
  fun t => if t == "PAYLOAD" then some 1 else none

def c8Store : Store := { }

/-- Witness for C8: a response fenced as "```json ... ```" parses after
stripping, and `score_fit` returns the parsed value. -/
theorem c8_witness :
    (score_fit c8_parse c8Store none (Except.ok "```json\nPAYLOAD\n```") true).2 =
      Except.ok 1 :=
  (c8_parse_error_no_side_effects c8_parse c8Store none "```json\nPAYLOAD\n```" true).2.1
    1 (by decide)

/-! ### Claim C9 — log failure swallowed, call/parse failure propagated -/

/-- C9: a failure while appending the "AI Action" log entry for a
successful AI task is caught and ignored — `_log_ai_action` never
raises and the task still returns its parsed result (with the store
unchanged, since the failed append wrote nothing); whereas a failure of
the external call itself, or of the JSON parse, propagates to the
caller as the operation's error. -/
theorem c9_log_failure_swallowed {J : Type} (parse : String → Option J) (s : Store)
    (oid : Option Nat) (text : String) (j : J) (log_ok : Bool)
    (hj : parse (strip_markdown_fences text) = some j) :
    score_fit parse s oid (Except.ok text) false = (s, Except.ok j) ∧
    (∀ fn : String, ∀ o2 : Option Nat, _log_ai_action s false fn o2 = s) ∧
    (∀ e : String, score_fit parse s oid (Except.error e) log_ok = (s, Except.error e)) ∧
    (∀ t2 : String, parse (strip_markdown_fences t2) = none →
      score_fit parse s oid (Except.ok t2) log_ok = (s, Except.error "ParseError")) := by
  refine ⟨?_, fun fn o2 => rfl, fun e => rfl, ?_⟩
  · have h1 : score_fit parse s oid (Except.ok text) false =
        (match parse (strip_markdown_fences text) with
         | none => (s, Except.error "ParseError")
         | some result => (_log_ai_action s false "score_fit" oid, Except.ok result)) := rfl
    rw [h1, hj]
    rfl
  · intro t2 hnone
    have h2 : score_fit parse s oid (Except.ok t2) log_ok =
        (match parse (strip_markdown_fences t2) with
         | none => (s, Except.error "ParseError")
         | some result => (_log_ai_action s log_ok "score_fit" oid, Except.ok result)) := rfl
    rw [h2, hnone]

/-- Witness for C9: with the concrete decoder, a successful parse with a
failing log append still returns the parsed value and leaves the store
unchanged. -/
theorem c9_witness :
    score_fit c8_parse c8Store none (Except.ok "```json\nPAYLOAD\n```") false =
      (c8Store, Except.ok 1) :=
  (c9_log_failure_swallowed c8_parse c8Store none "```json\nPAYLOAD\n```" 1 true
    (by decide)).1

end JobSearchOps
